import Mathlib

/-!
Shallow embedding of the system-monitor crate (src/lib.rs and
examples/monitor.rs): a background metrics collector with four refresher
threads writing into a shared sysinfo store, a dispatcher thread serving
read requests from a bounded flume channel, and async client operations
replying over oneshot channels.

Machine integers (u64 counters) are modelled as Nat: the monitor only
copies them, never computes with them, so no overflow reduction is needed.
f32 usage values are modelled as Float; they are likewise only copied.
-/

namespace SystemMonitorModel

/-- Client-facing per-core CPU sample (struct Cpu in lib.rs). -/
structure Cpu where
  name : String
  usage : Float

/-- Client-facing swap counters (struct Swap in lib.rs). -/
structure Swap where
  total : Nat
  free : Nat
  used : Nat
  deriving DecidableEq

/-- Client-facing memory counters (struct Memory in lib.rs). -/
structure Memory where
  total : Nat
  available : Nat
  free : Nat
  used : Nat
  swap : Swap
  deriving DecidableEq

/-- Client-facing per-interface network counters (struct Network in lib.rs). -/
structure Network where
  name : String
  received : Nat
  total_received : Nat
  transmitted : Nat
  total_transmitted : Nat
  packets_received : Nat
  total_packets_received : Nat
  packets_transmitted : Nat
  total_packets_transmitted : Nat
  errors_on_received : Nat
  total_errors_on_received : Nat
  errors_on_transmitted : Nat
  total_errors_on_transmitted : Nat
  deriving DecidableEq

/-- Client-facing per-disk sample (struct Disk in lib.rs); the PathBuf
mount point is modelled as a string. -/
structure Disk where
  file_system : String
  mount_point : String
  total_space : Nat
  available_space : Nat
  deriving DecidableEq

/-- Rust derive(Default) for Swap: all counters zero. -/
def Swap.rustDefault : Swap := { total := 0, free := 0, used := 0 }

/-- Rust derive(Default) for Memory: all counters zero. -/
def Memory.rustDefault : Memory :=
  { total := 0, available := 0, free := 0, used := 0, swap := Swap.rustDefault }

/-- Sampler-side per-core CPU reading (sysinfo CpuExt: name, cpu_usage). -/
structure SysCpu where
  name : String
  usage : Float

/-- Sampler-side memory counters produced by one refresh_memory cycle
(sysinfo SystemExt memory and swap accessors). -/
structure MemCounters where
  total : Nat
  available : Nat
  free : Nat
  used : Nat
  swap_total : Nat
  swap_free : Nat
  swap_used : Nat
  deriving DecidableEq

/-- Sampler-side per-interface counters (sysinfo NetworkExt accessors). -/
structure SysNetwork where
  received : Nat
  total_received : Nat
  transmitted : Nat
  total_transmitted : Nat
  packets_received : Nat
  total_packets_received : Nat
  packets_transmitted : Nat
  total_packets_transmitted : Nat
  errors_on_received : Nat
  total_errors_on_received : Nat
  errors_on_transmitted : Nat
  total_errors_on_transmitted : Nat
  deriving DecidableEq

/-- Sampler-side per-disk reading (sysinfo DiskExt); file_system is the
raw byte sequence of the OS filesystem name, not necessarily UTF-8. -/
structure SysDisk where
  file_system : List UInt8
  mount_point : String
  total_space : Nat
  available_space : Nat
  deriving DecidableEq

namespace Sysinfo

/-- The shared store: sysinfo::System, holding the data its accessor
methods expose for the four metric classes. -/
structure System where
  cpus : List SysCpu
  memory : MemCounters
  networks : List (String × SysNetwork)
  disks : List SysDisk

/-- sysinfo::System::new(): nothing sampled yet, every class empty/zero. -/
def System.new : System :=
  { cpus := []
    memory := { total := 0, available := 0, free := 0, used := 0,
                swap_total := 0, swap_free := 0, swap_used := 0 }
    networks := []
    disks := [] }

/-- refresh_cpu: one sampler cycle replaces the per-core CPU data with
this cycle's readings; no other class is touched. -/
def System.refresh_cpu (s : System) (reading : List SysCpu) : System :=
  { s with cpus := reading }

/-- refresh_memory: one sampler cycle replaces the memory and swap
counters; no other class is touched. -/
def System.refresh_memory (s : System) (reading : MemCounters) : System :=
  { s with memory := reading }

/-- refresh_disks_list followed by refresh_disks: one sampler cycle
rediscovers the disk list and replaces the per-disk data. -/
def System.refresh_disks (s : System) (reading : List SysDisk) : System :=
  { s with disks := reading }

/-- refresh_networks_list followed by refresh_networks: one sampler cycle
rediscovers the interface list and replaces the per-interface data. -/
def System.refresh_networks (s : System) (reading : List (String × SysNetwork)) : System :=
  { s with networks := reading }

end Sysinfo

/-- The Unicode replacement character U+FFFD emitted by lossy decoding. -/
def replacementChar : Char := Char.ofNat 0xFFFD

/-- Whether a byte is a UTF-8 continuation byte (0x80 to 0xBF). -/
def isCont (b : UInt8) : Bool := 0x80 ≤ b && b ≤ 0xBF

/-- Valid range of the second byte of a three-byte sequence, which depends
on the lead byte (0xE0 and 0xED restrict it to exclude overlong and
surrogate encodings). -/
def isCont3 (b b2 : UInt8) : Bool :=
  if b = 0xE0 then 0xA0 ≤ b2 && b2 ≤ 0xBF
  else if b = 0xED then 0x80 ≤ b2 && b2 ≤ 0x9F
  else isCont b2

/-- Valid range of the second byte of a four-byte sequence, which depends
on the lead byte (0xF0 and 0xF4 restrict it to exclude overlong encodings
and code points above U+10FFFF). -/
def isCont4 (b b2 : UInt8) : Bool :=
  if b = 0xF0 then 0x90 ≤ b2 && b2 ≤ 0xBF
  else if b = 0xF4 then 0x80 ≤ b2 && b2 ≤ 0x8F
  else isCont b2

/-- Scalar value of a two-byte UTF-8 sequence. -/
def decode2 (b b2 : UInt8) : Char :=
  Char.ofNat (((b.toNat &&& 0x1F) <<< 6) ||| (b2.toNat &&& 0x3F))

/-- Scalar value of a three-byte UTF-8 sequence. -/
def decode3 (b b2 b3 : UInt8) : Char :=
  Char.ofNat (((b.toNat &&& 0x0F) <<< 12) ||| ((b2.toNat &&& 0x3F) <<< 6) |||
    (b3.toNat &&& 0x3F))

/-- Scalar value of a four-byte UTF-8 sequence. -/
def decode4 (b b2 b3 b4 : UInt8) : Char :=
  Char.ofNat (((b.toNat &&& 0x07) <<< 18) ||| ((b2.toNat &&& 0x3F) <<< 12) |||
    ((b3.toNat &&& 0x3F) <<< 6) ||| (b4.toNat &&& 0x3F))

/-- Rust String::from_utf8_lossy, character by character: each maximal
invalid subsequence (Unicode substitution of maximal subparts, as in
core::str::run_utf8_validation with its error_len) is replaced by one
U+FFFD, and decoding resumes at the first byte after the subpart. -/
def utf8LossyChars : List UInt8 → List Char
  | [] => []
  | b :: rest =>
    if b ≤ 0x7F then Char.ofNat b.toNat :: utf8LossyChars rest
    else if 0xC2 ≤ b && b ≤ 0xDF then
      match rest with
      | [] => [replacementChar]
      | b2 :: rest2 =>
        if isCont b2 then decode2 b b2 :: utf8LossyChars rest2
        else replacementChar :: utf8LossyChars (b2 :: rest2)
    else if 0xE0 ≤ b && b ≤ 0xEF then
      match rest with
      | [] => [replacementChar]
      | b2 :: rest2 =>
        if isCont3 b b2 then
          match rest2 with
          | [] => [replacementChar]
          | b3 :: rest3 =>
            if isCont b3 then decode3 b b2 b3 :: utf8LossyChars rest3
            else replacementChar :: utf8LossyChars (b3 :: rest3)
        else replacementChar :: utf8LossyChars (b2 :: rest2)
    else if 0xF0 ≤ b && b ≤ 0xF4 then
      match rest with
      | [] => [replacementChar]
      | b2 :: rest2 =>
        if isCont4 b b2 then
          match rest2 with
          | [] => [replacementChar]
          | b3 :: rest3 =>
            if isCont b3 then
              match rest3 with
              | [] => [replacementChar]
              | b4 :: rest4 =>
                if isCont b4 then decode4 b b2 b3 b4 :: utf8LossyChars rest4
                else replacementChar :: utf8LossyChars (b4 :: rest4)
            else replacementChar :: utf8LossyChars (b3 :: rest3)
        else replacementChar :: utf8LossyChars (b2 :: rest2)
    else replacementChar :: utf8LossyChars rest

/-- Whether a byte sequence is valid UTF-8 (Rust str::from_utf8 succeeds);
same branch structure as the lossy decoder, failing where it substitutes. -/
def validUtf8 : List UInt8 → Bool
  | [] => true
  | b :: rest =>
    if b ≤ 0x7F then validUtf8 rest
    else if 0xC2 ≤ b && b ≤ 0xDF then
      match rest with
      | [] => false
      | b2 :: rest2 => if isCont b2 then validUtf8 rest2 else false
    else if 0xE0 ≤ b && b ≤ 0xEF then
      match rest with
      | [] => false
      | b2 :: rest2 =>
        if isCont3 b b2 then
          match rest2 with
          | [] => false
          | b3 :: rest3 => if isCont b3 then validUtf8 rest3 else false
        else false
    else if 0xF0 ≤ b && b ≤ 0xF4 then
      match rest with
      | [] => false
      | b2 :: rest2 =>
        if isCont4 b b2 then
          match rest2 with
          | [] => false
          | b3 :: rest3 =>
            if isCont b3 then
              match rest3 with
              | [] => false
              | b4 :: rest4 => if isCont b4 then validUtf8 rest4 else false
            else false
        else false
    else false

/-- Rust String::from_utf8_lossy(...).to_string() as used on the disk
filesystem name. -/
def fromUtf8Lossy (bs : List UInt8) : String := String.mk (utf8LossyChars bs)

/-- One-step unfolding of the validator on an ASCII byte. -/
lemma validUtf8_ascii (b : UInt8) (rest : List UInt8) (h : b ≤ 0x7F) :
    validUtf8 (b :: rest) = validUtf8 rest := by
  rw [validUtf8.eq_def]; simp [h]

/-- One-step unfolding of the decoder on an ASCII byte. -/
lemma utf8LossyChars_ascii (b : UInt8) (rest : List UInt8) (h : b ≤ 0x7F) :
    utf8LossyChars (b :: rest) = Char.ofNat b.toNat :: utf8LossyChars rest := by
  rw [utf8LossyChars.eq_def]; simp [h]

/-- One-step unfolding of the validator on a complete two-byte sequence. -/
lemma validUtf8_two_ok (b b2 : UInt8) (rest2 : List UInt8) (h1 : ¬ b ≤ 0x7F)
    (h2 : (decide (0xC2 ≤ b) && decide (b ≤ 0xDF)) = true) (hc : isCont b2 = true) :
    validUtf8 (b :: b2 :: rest2) = validUtf8 rest2 := by
  rw [validUtf8.eq_def]; simp [h1, h2, hc]

/-- One-step unfolding of the decoder on a complete two-byte sequence. -/
lemma utf8LossyChars_two_ok (b b2 : UInt8) (rest2 : List UInt8) (h1 : ¬ b ≤ 0x7F)
    (h2 : (decide (0xC2 ≤ b) && decide (b ≤ 0xDF)) = true) (hc : isCont b2 = true) :
    utf8LossyChars (b :: b2 :: rest2) = decode2 b b2 :: utf8LossyChars rest2 := by
  rw [utf8LossyChars.eq_def]; simp [h1, h2, hc]

/-- One-step unfolding of the validator on a two-byte lead whose
continuation byte is invalid. -/
lemma validUtf8_two_bad (b b2 : UInt8) (rest2 : List UInt8) (h1 : ¬ b ≤ 0x7F)
    (h2 : (decide (0xC2 ≤ b) && decide (b ≤ 0xDF)) = true) (hc : ¬ isCont b2 = true) :
    validUtf8 (b :: b2 :: rest2) = false := by
  rw [validUtf8.eq_def]; simp [h1, h2, hc]

/-- One-step unfolding of the decoder on a two-byte lead whose
continuation byte is invalid: one replacement, resume at the bad byte. -/
lemma utf8LossyChars_two_bad (b b2 : UInt8) (rest2 : List UInt8) (h1 : ¬ b ≤ 0x7F)
    (h2 : (decide (0xC2 ≤ b) && decide (b ≤ 0xDF)) = true) (hc : ¬ isCont b2 = true) :
    utf8LossyChars (b :: b2 :: rest2) = replacementChar :: utf8LossyChars (b2 :: rest2) := by
  rw [utf8LossyChars.eq_def]; simp [h1, h2, hc]

/-- One-step unfolding of the validator on a complete three-byte sequence. -/
lemma validUtf8_three_ok (b b2 b3 : UInt8) (rest3 : List UInt8) (h1 : ¬ b ≤ 0x7F)
    (h2 : ¬ (decide (0xC2 ≤ b) && decide (b ≤ 0xDF)) = true)
    (h3 : (decide (0xE0 ≤ b) && decide (b ≤ 0xEF)) = true)
    (hc3 : isCont3 b b2 = true) (hc : isCont b3 = true) :
    validUtf8 (b :: b2 :: b3 :: rest3) = validUtf8 rest3 := by
  rw [validUtf8.eq_def]; simp [h1, h2, h3, hc3, hc]

/-- One-step unfolding of the decoder on a complete three-byte sequence. -/
lemma utf8LossyChars_three_ok (b b2 b3 : UInt8) (rest3 : List UInt8) (h1 : ¬ b ≤ 0x7F)
    (h2 : ¬ (decide (0xC2 ≤ b) && decide (b ≤ 0xDF)) = true)
    (h3 : (decide (0xE0 ≤ b) && decide (b ≤ 0xEF)) = true)
    (hc3 : isCont3 b b2 = true) (hc : isCont b3 = true) :
    utf8LossyChars (b :: b2 :: b3 :: rest3) = decode3 b b2 b3 :: utf8LossyChars rest3 := by
  rw [utf8LossyChars.eq_def]; simp [h1, h2, h3, hc3, hc]

/-- One-step unfolding of the validator when the third byte of a
three-byte sequence is invalid. -/
lemma validUtf8_three_bad3 (b b2 b3 : UInt8) (rest3 : List UInt8) (h1 : ¬ b ≤ 0x7F)
    (h2 : ¬ (decide (0xC2 ≤ b) && decide (b ≤ 0xDF)) = true)
    (h3 : (decide (0xE0 ≤ b) && decide (b ≤ 0xEF)) = true)
    (hc3 : isCont3 b b2 = true) (hc : ¬ isCont b3 = true) :
    validUtf8 (b :: b2 :: b3 :: rest3) = false := by
  rw [validUtf8.eq_def]; simp [h1, h2, h3, hc3, hc]

/-- One-step unfolding of the decoder when the third byte of a
three-byte sequence is invalid: one replacement for the maximal subpart,
resume at the bad byte. -/
lemma utf8LossyChars_three_bad3 (b b2 b3 : UInt8) (rest3 : List UInt8) (h1 : ¬ b ≤ 0x7F)
    (h2 : ¬ (decide (0xC2 ≤ b) && decide (b ≤ 0xDF)) = true)
    (h3 : (decide (0xE0 ≤ b) && decide (b ≤ 0xEF)) = true)
    (hc3 : isCont3 b b2 = true) (hc : ¬ isCont b3 = true) :
    utf8LossyChars (b :: b2 :: b3 :: rest3) =
      replacementChar :: utf8LossyChars (b3 :: rest3) := by
  rw [utf8LossyChars.eq_def]; simp [h1, h2, h3, hc3, hc]

/-- One-step unfolding of the validator when the second byte of a
three-byte sequence is invalid. -/
lemma validUtf8_three_bad2 (b b2 : UInt8) (rest2 : List UInt8) (h1 : ¬ b ≤ 0x7F)
    (h2 : ¬ (decide (0xC2 ≤ b) && decide (b ≤ 0xDF)) = true)
    (h3 : (decide (0xE0 ≤ b) && decide (b ≤ 0xEF)) = true)
    (hc3 : ¬ isCont3 b b2 = true) :
    validUtf8 (b :: b2 :: rest2) = false := by
  rw [validUtf8.eq_def]; simp [h1, h2, h3, hc3]

/-- One-step unfolding of the decoder when the second byte of a
three-byte sequence is invalid. -/
lemma utf8LossyChars_three_bad2 (b b2 : UInt8) (rest2 : List UInt8) (h1 : ¬ b ≤ 0x7F)
    (h2 : ¬ (decide (0xC2 ≤ b) && decide (b ≤ 0xDF)) = true)
    (h3 : (decide (0xE0 ≤ b) && decide (b ≤ 0xEF)) = true)
    (hc3 : ¬ isCont3 b b2 = true) :
    utf8LossyChars (b :: b2 :: rest2) = replacementChar :: utf8LossyChars (b2 :: rest2) := by
  rw [utf8LossyChars.eq_def]; simp [h1, h2, h3, hc3]

/-- One-step unfolding of the validator on a complete four-byte sequence. -/
lemma validUtf8_four_ok (b b2 b3 b4 : UInt8) (rest4 : List UInt8) (h1 : ¬ b ≤ 0x7F)
    (h2 : ¬ (decide (0xC2 ≤ b) && decide (b ≤ 0xDF)) = true)
    (h3 : ¬ (decide (0xE0 ≤ b) && decide (b ≤ 0xEF)) = true)
    (h4 : (decide (0xF0 ≤ b) && decide (b ≤ 0xF4)) = true)
    (hc4 : isCont4 b b2 = true) (hc3 : isCont b3 = true) (hc : isCont b4 = true) :
    validUtf8 (b :: b2 :: b3 :: b4 :: rest4) = validUtf8 rest4 := by
  rw [validUtf8.eq_def]; simp [h1, h2, h3, h4, hc4, hc3, hc]

/-- One-step unfolding of the decoder on a complete four-byte sequence. -/
lemma utf8LossyChars_four_ok (b b2 b3 b4 : UInt8) (rest4 : List UInt8) (h1 : ¬ b ≤ 0x7F)
    (h2 : ¬ (decide (0xC2 ≤ b) && decide (b ≤ 0xDF)) = true)
    (h3 : ¬ (decide (0xE0 ≤ b) && decide (b ≤ 0xEF)) = true)
    (h4 : (decide (0xF0 ≤ b) && decide (b ≤ 0xF4)) = true)
    (hc4 : isCont4 b b2 = true) (hc3 : isCont b3 = true) (hc : isCont b4 = true) :
    utf8LossyChars (b :: b2 :: b3 :: b4 :: rest4) =
      decode4 b b2 b3 b4 :: utf8LossyChars rest4 := by
  rw [utf8LossyChars.eq_def]; simp [h1, h2, h3, h4, hc4, hc3, hc]

/-- One-step unfolding of the validator when the fourth byte of a
four-byte sequence is invalid. -/
lemma validUtf8_four_bad4 (b b2 b3 b4 : UInt8) (rest4 : List UInt8) (h1 : ¬ b ≤ 0x7F)
    (h2 : ¬ (decide (0xC2 ≤ b) && decide (b ≤ 0xDF)) = true)
    (h3 : ¬ (decide (0xE0 ≤ b) && decide (b ≤ 0xEF)) = true)
    (h4 : (decide (0xF0 ≤ b) && decide (b ≤ 0xF4)) = true)
    (hc4 : isCont4 b b2 = true) (hc3 : isCont b3 = true) (hc : ¬ isCont b4 = true) :
    validUtf8 (b :: b2 :: b3 :: b4 :: rest4) = false := by
  rw [validUtf8.eq_def]; simp [h1, h2, h3, h4, hc4, hc3, hc]

/-- One-step unfolding of the decoder when the fourth byte of a
four-byte sequence is invalid. -/
lemma utf8LossyChars_four_bad4 (b b2 b3 b4 : UInt8) (rest4 : List UInt8) (h1 : ¬ b ≤ 0x7F)
    (h2 : ¬ (decide (0xC2 ≤ b) && decide (b ≤ 0xDF)) = true)
    (h3 : ¬ (decide (0xE0 ≤ b) && decide (b ≤ 0xEF)) = true)
    (h4 : (decide (0xF0 ≤ b) && decide (b ≤ 0xF4)) = true)
    (hc4 : isCont4 b b2 = true) (hc3 : isCont b3 = true) (hc : ¬ isCont b4 = true) :
    utf8LossyChars (b :: b2 :: b3 :: b4 :: rest4) =
      replacementChar :: utf8LossyChars (b4 :: rest4) := by
  rw [utf8LossyChars.eq_def]; simp [h1, h2, h3, h4, hc4, hc3, hc]

/-- One-step unfolding of the validator when the third byte of a
four-byte sequence is invalid. -/
lemma validUtf8_four_bad3 (b b2 b3 : UInt8) (rest3 : List UInt8) (h1 : ¬ b ≤ 0x7F)
    (h2 : ¬ (decide (0xC2 ≤ b) && decide (b ≤ 0xDF)) = true)
    (h3 : ¬ (decide (0xE0 ≤ b) && decide (b ≤ 0xEF)) = true)
    (h4 : (decide (0xF0 ≤ b) && decide (b ≤ 0xF4)) = true)
    (hc4 : isCont4 b b2 = true) (hc3 : ¬ isCont b3 = true) :
    validUtf8 (b :: b2 :: b3 :: rest3) = false := by
  rw [validUtf8.eq_def]; simp [h1, h2, h3, h4, hc4, hc3]

/-- One-step unfolding of the decoder when the third byte of a
four-byte sequence is invalid. -/
lemma utf8LossyChars_four_bad3 (b b2 b3 : UInt8) (rest3 : List UInt8) (h1 : ¬ b ≤ 0x7F)
    (h2 : ¬ (decide (0xC2 ≤ b) && decide (b ≤ 0xDF)) = true)
    (h3 : ¬ (decide (0xE0 ≤ b) && decide (b ≤ 0xEF)) = true)
    (h4 : (decide (0xF0 ≤ b) && decide (b ≤ 0xF4)) = true)
    (hc4 : isCont4 b b2 = true) (hc3 : ¬ isCont b3 = true) :
    utf8LossyChars (b :: b2 :: b3 :: rest3) =
      replacementChar :: utf8LossyChars (b3 :: rest3) := by
  rw [utf8LossyChars.eq_def]; simp [h1, h2, h3, h4, hc4, hc3]

/-- One-step unfolding of the validator when the second byte of a
four-byte sequence is invalid. -/
lemma validUtf8_four_bad2 (b b2 : UInt8) (rest2 : List UInt8) (h1 : ¬ b ≤ 0x7F)
    (h2 : ¬ (decide (0xC2 ≤ b) && decide (b ≤ 0xDF)) = true)
    (h3 : ¬ (decide (0xE0 ≤ b) && decide (b ≤ 0xEF)) = true)
    (h4 : (decide (0xF0 ≤ b) && decide (b ≤ 0xF4)) = true)
    (hc4 : ¬ isCont4 b b2 = true) :
    validUtf8 (b :: b2 :: rest2) = false := by
  rw [validUtf8.eq_def]; simp [h1, h2, h3, h4, hc4]

/-- One-step unfolding of the decoder when the second byte of a
four-byte sequence is invalid. -/
lemma utf8LossyChars_four_bad2 (b b2 : UInt8) (rest2 : List UInt8) (h1 : ¬ b ≤ 0x7F)
    (h2 : ¬ (decide (0xC2 ≤ b) && decide (b ≤ 0xDF)) = true)
    (h3 : ¬ (decide (0xE0 ≤ b) && decide (b ≤ 0xEF)) = true)
    (h4 : (decide (0xF0 ≤ b) && decide (b ≤ 0xF4)) = true)
    (hc4 : ¬ isCont4 b b2 = true) :
    utf8LossyChars (b :: b2 :: rest2) = replacementChar :: utf8LossyChars (b2 :: rest2) := by
  rw [utf8LossyChars.eq_def]; simp [h1, h2, h3, h4, hc4]

/-- One-step unfolding of the validator on a byte that can lead no
sequence (a stray continuation byte or an out-of-range lead). -/
lemma validUtf8_badlead (b : UInt8) (rest : List UInt8) (h1 : ¬ b ≤ 0x7F)
    (h2 : ¬ (decide (0xC2 ≤ b) && decide (b ≤ 0xDF)) = true)
    (h3 : ¬ (decide (0xE0 ≤ b) && decide (b ≤ 0xEF)) = true)
    (h4 : ¬ (decide (0xF0 ≤ b) && decide (b ≤ 0xF4)) = true) :
    validUtf8 (b :: rest) = false := by
  rw [validUtf8.eq_def]; simp [h1, h2, h3, h4]

/-- One-step unfolding of the decoder on a byte that can lead no
sequence: one replacement, resume at the next byte. -/
lemma utf8LossyChars_badlead (b : UInt8) (rest : List UInt8) (h1 : ¬ b ≤ 0x7F)
    (h2 : ¬ (decide (0xC2 ≤ b) && decide (b ≤ 0xDF)) = true)
    (h3 : ¬ (decide (0xE0 ≤ b) && decide (b ≤ 0xEF)) = true)
    (h4 : ¬ (decide (0xF0 ≤ b) && decide (b ≤ 0xF4)) = true) :
    utf8LossyChars (b :: rest) = replacementChar :: utf8LossyChars rest := by
  rw [utf8LossyChars.eq_def]; simp [h1, h2, h3, h4]

/-- A byte sequence is either valid UTF-8, or its lossy decoding contains
the replacement character: every invalid maximal subpart puts one there. -/
lemma valid_or_replacement_mem (bs : List UInt8) :
    validUtf8 bs = true ∨ replacementChar ∈ utf8LossyChars bs := by
  induction bs using utf8LossyChars.induct with
  | case1 => exact Or.inl rfl
  | case2 b rest h ih =>
      rw [validUtf8_ascii b rest h, utf8LossyChars_ascii b rest h]
      rcases ih with hv | hm
      · exact Or.inl hv
      · exact Or.inr (List.mem_cons_of_mem _ hm)
  | case3 b h1 h2 =>
      rw [validUtf8.eq_def, utf8LossyChars.eq_def]; simp [h1, h2]
  | case4 b h1 h2 b2 rest2 hc ih =>
      rw [validUtf8_two_ok b b2 rest2 h1 h2 hc, utf8LossyChars_two_ok b b2 rest2 h1 h2 hc]
      rcases ih with hv | hm
      · exact Or.inl hv
      · exact Or.inr (List.mem_cons_of_mem _ hm)
  | case5 b h1 h2 b2 rest2 hc ih =>
      rw [utf8LossyChars_two_bad b b2 rest2 h1 h2 hc]
      exact Or.inr (List.mem_cons_self _ _)
  | case6 b h1 h2 h3 =>
      rw [validUtf8.eq_def, utf8LossyChars.eq_def]; simp [h1, h2, h3]
  | case7 b h1 h2 h3 b2 hc3 =>
      rw [validUtf8.eq_def, utf8LossyChars.eq_def]; simp [h1, h2, h3, hc3]
  | case8 b h1 h2 h3 b2 hc3 b3 rest3 hc ih =>
      rw [validUtf8_three_ok b b2 b3 rest3 h1 h2 h3 hc3 hc,
        utf8LossyChars_three_ok b b2 b3 rest3 h1 h2 h3 hc3 hc]
      rcases ih with hv | hm
      · exact Or.inl hv
      · exact Or.inr (List.mem_cons_of_mem _ hm)
  | case9 b h1 h2 h3 b2 hc3 b3 rest3 hc ih =>
      rw [utf8LossyChars_three_bad3 b b2 b3 rest3 h1 h2 h3 hc3 hc]
      exact Or.inr (List.mem_cons_self _ _)
  | case10 b h1 h2 h3 b2 rest2 hc3 ih =>
      rw [utf8LossyChars_three_bad2 b b2 rest2 h1 h2 h3 hc3]
      exact Or.inr (List.mem_cons_self _ _)
  | case11 b h1 h2 h3 h4 =>
      rw [validUtf8.eq_def, utf8LossyChars.eq_def]; simp [h1, h2, h3, h4]
  | case12 b h1 h2 h3 h4 b2 hc4 =>
      rw [validUtf8.eq_def, utf8LossyChars.eq_def]; simp [h1, h2, h3, h4, hc4]
  | case13 b h1 h2 h3 h4 b2 hc4 b3 hc =>
      rw [validUtf8.eq_def, utf8LossyChars.eq_def]; simp [h1, h2, h3, h4, hc4, hc]
  | case14 b h1 h2 h3 h4 b2 hc4 b3 hc3 b4 rest4 hc ih =>
      rw [validUtf8_four_ok b b2 b3 b4 rest4 h1 h2 h3 h4 hc4 hc3 hc,
        utf8LossyChars_four_ok b b2 b3 b4 rest4 h1 h2 h3 h4 hc4 hc3 hc]
      rcases ih with hv | hm
      · exact Or.inl hv
      · exact Or.inr (List.mem_cons_of_mem _ hm)
  | case15 b h1 h2 h3 h4 b2 hc4 b3 hc3 b4 rest4 hc ih =>
      rw [utf8LossyChars_four_bad4 b b2 b3 b4 rest4 h1 h2 h3 h4 hc4 hc3 hc]
      exact Or.inr (List.mem_cons_self _ _)
  | case16 b h1 h2 h3 h4 b2 hc4 b3 rest3 hc3 ih =>
      rw [utf8LossyChars_four_bad3 b b2 b3 rest3 h1 h2 h3 h4 hc4 hc3]
      exact Or.inr (List.mem_cons_self _ _)
  | case17 b h1 h2 h3 h4 b2 rest2 hc4 ih =>
      rw [utf8LossyChars_four_bad2 b b2 rest2 h1 h2 h3 h4 hc4]
      exact Or.inr (List.mem_cons_self _ _)
  | case18 b rest h1 h2 h3 h4 ih =>
      rw [utf8LossyChars_badlead b rest h1 h2 h3 h4]
      exact Or.inr (List.mem_cons_self _ _)

/-- What the dispatcher sends for Request::Cpu: per-core name and usage
copied out of the store under the read guard. -/
def answerCpu (s : Sysinfo.System) : List Cpu :=
  s.cpus.map (fun c => { name := c.name, usage := c.usage })

/-- What the dispatcher sends for Request::Memory: the store's memory and
swap accessor values. -/
def answerMemory (s : Sysinfo.System) : Memory :=
  { total := s.memory.total
    available := s.memory.available
    free := s.memory.free
    used := s.memory.used
    swap := { total := s.memory.swap_total
              free := s.memory.swap_free
              used := s.memory.swap_used } }

/-- What the dispatcher sends for Request::Network: one entry per stored
interface, name plus the twelve counters. -/
def answerNetwork (s : Sysinfo.System) : List Network :=
  s.networks.map (fun n =>
    { name := n.1
      received := n.2.received
      total_received := n.2.total_received
      transmitted := n.2.transmitted
      total_transmitted := n.2.total_transmitted
      packets_received := n.2.packets_received
      total_packets_received := n.2.total_packets_received
      packets_transmitted := n.2.packets_transmitted
      total_packets_transmitted := n.2.total_packets_transmitted
      errors_on_received := n.2.errors_on_received
      total_errors_on_received := n.2.total_errors_on_received
      errors_on_transmitted := n.2.errors_on_transmitted
      total_errors_on_transmitted := n.2.total_errors_on_transmitted })

/-- What the dispatcher sends for Request::Disk: one entry per stored
disk, the filesystem name decoded lossily from its raw bytes. -/
def answerDisk (s : Sysinfo.System) : List Disk :=
  s.disks.map (fun d =>
    { file_system := fromUtf8Lossy d.file_system
      mount_point := d.mount_point
      total_space := d.total_space
      available_space := d.available_space })

/-- The four variants of the Request enum, without their reply senders. -/
inductive RequestTag
  | cpu
  | memory
  | network
  | disk
  deriving DecidableEq

/-- The value a served request puts on its reply channel. -/
inductive Value
  | cpu (v : List Cpu)
  | memory (v : Memory)
  | network (v : List Network)
  | disk (v : List Disk)

/-- The dispatcher's match on a received request: reads the requested
class out of the store it holds a read guard on. -/
def serve (s : Sysinfo.System) : RequestTag → Value
  | .cpu => .cpu (answerCpu s)
  | .memory => .memory (answerMemory s)
  | .network => .network (answerNetwork s)
  | .disk => .disk (answerDisk s)

/-- Fate of a oneshot sender: either a value was sent on it, or it was
dropped without sending (request never served, e.g. after shutdown). -/
inductive SenderFate (α : Type)
  | sent (v : α)
  | dropped

/-- Result the oneshot receiver's await produces: the sent value, or
Canceled when the sender was dropped first. -/
inductive ReplyOutcome (α : Type)
  | value (v : α)
  | canceled

/-- futures oneshot: awaiting the receiver yields Ok(v) if the sender
sent v, and Err(Canceled) if the sender was dropped. -/
def awaitOutcome {α : Type} : SenderFate α → ReplyOutcome α
  | .sent v => .value v
  | .dropped => .canceled

/-- Result::unwrap_or_default on the awaited reply, with the Rust default
of the result type. -/
def unwrapOrDefault {α : Type} (dflt : α) : ReplyOutcome α → α
  | .value v => v
  | .canceled => dflt

/-- Fate of a request's oneshot sender as determined by the dispatcher:
if the dispatcher is alive it serves the request and sends the value; if
it (or the whole monitor) has shut down, the request and its sender are
dropped unsent. -/
def replyFate {α : Type} (dispatcherAlive : Bool) (served : α) : SenderFate α :=
  if dispatcherAlive then .sent served else .dropped

/-- SystemMonitor::get_cpu: awaits the oneshot reply and returns its
value, or Vec::default (empty) when the reply was canceled. -/
def get_cpu (outcome : ReplyOutcome (List Cpu)) : List Cpu :=
  unwrapOrDefault [] outcome

/-- SystemMonitor::get_memory: awaits the oneshot reply and returns its
value, or Memory::default (all zero) when the reply was canceled. -/
def get_memory (outcome : ReplyOutcome Memory) : Memory :=
  unwrapOrDefault Memory.rustDefault outcome

/-- SystemMonitor::get_network: awaits the oneshot reply and returns its
value, or Vec::default (empty) when the reply was canceled. -/
def get_network (outcome : ReplyOutcome (List Network)) : List Network :=
  unwrapOrDefault [] outcome

/-- SystemMonitor::get_disk: awaits the oneshot reply and returns its
value, or Vec::default (empty) when the reply was canceled. -/
def get_disk (outcome : ReplyOutcome (List Disk)) : List Disk :=
  unwrapOrDefault [] outcome

/-- tx.send(value).ok(): delivers the value if the receiving side is
still alive, otherwise the send error (carrying the value) is discarded
by .ok() and nothing is delivered. -/
def oneshotSendOk {α : Type} (receiverAlive : Bool) (v : α) : Option α :=
  if receiverAlive then some v else none

/-- The dispatcher loop over a sequence of received requests, each paired
with whether its reply receiver is still alive at delivery time: every
request is served and its reply sent best-effort, then the loop moves to
the next request. -/
def dispatchAll (s : Sysinfo.System) : List (RequestTag × Bool) → List (Option Value)
  | [] => []
  | (t, alive) :: rest => oneshotSendOk alive (serve s t) :: dispatchAll s rest

/-- The dispatcher loop serving requests in dequeue order, with the store
contents at each iteration given by an environment (refreshers may write
between iterations): iteration i serves the i-th dequeued request against
the store state at that iteration. -/
def dispatchFrom (stores : Nat → Sysinfo.System) (i : Nat) :
    List RequestTag → List Value
  | [] => []
  | t :: ts => serve (stores i) t :: dispatchFrom stores (i + 1) ts

/-- One dispatcher iteration as a store transformer: the dispatcher holds
only a read guard, so the store it releases is the store it acquired. -/
def dispatchStep (s : Sysinfo.System) (t : RequestTag) : Sysinfo.System × Value :=
  (s, serve s t)

/-- Result of flume Receiver::recv as the dispatcher loop head sees it:
a buffered message if any, otherwise it blocks while a sender still
exists and returns Err(Disconnected) once every sender is dropped. -/
inductive RecvResult (α : Type)
  | msg (a : α)
  | blocked
  | disconnected

/-- flume recv on the inbound channel: senderAlive is whether the
SystemMonitor handle owning req_tx is still live. -/
def chanRecv {α : Type} (senderAlive : Bool) : List α → RecvResult α
  | a :: _ => .msg a
  | [] => if senderAlive then .blocked else .disconnected

/-- Whether the dispatcher's while-let loop has exited: true exactly when
recv returned Disconnected. -/
def dispatcherLoopExited (senderAlive : Bool) (queue : List RequestTag) : Bool :=
  match chanRecv senderAlive queue with
  | .disconnected => true
  | _ => false

/-- Each refresher thread body is an unconditional Rust loop with no
break and no shutdown check: whether it runs another iteration does not
depend on whether the monitor has been dropped. -/
def refresherLoopContinues (monitorDropped : Bool) : Bool :=
  match monitorDropped with
  | true => true
  | false => true

/-- Capacity of the dispatcher's inbound channel: flume::bounded(1). -/
def inboundCapacity : Nat := 1

/-- State of the inbound channel together with its clients: the buffered
requests, the callers still waiting to enqueue (in program order), and how
many requests the dispatcher has served. -/
structure ChanState where
  buffer : List RequestTag
  pending : List RequestTag
  served : Nat
  deriving DecidableEq

/-- Interleaved execution of the callers and the dispatcher: a waiting
caller's send_async completes only when the bounded buffer has space (it
suspends otherwise), and the dispatcher dequeues the oldest buffered
request and serves it. -/
inductive ChanStep : ChanState → ChanState → Prop
  | enqueue (t : RequestTag) (ts : List RequestTag) (st : ChanState) :
      st.pending = t :: ts →
      st.buffer.length < inboundCapacity →
      ChanStep st { buffer := st.buffer ++ [t], pending := ts, served := st.served }
  | serveReq (t : RequestTag) (ts : List RequestTag) (st : ChanState) :
      st.buffer = t :: ts →
      ChanStep st { buffer := ts, pending := st.pending, served := st.served + 1 }

/-- States reachable by any interleaving of caller and dispatcher steps. -/
def ChanReachable : ChanState → ChanState → Prop :=
  Relation.ReflTransGen ChanStep

/-- Initial channel state with the given callers about to enqueue: empty
buffer, nothing served. -/
def chanInit (tags : List RequestTag) : ChanState :=
  { buffer := [], pending := tags, served := 0 }

/-- sysinfo::System::MINIMUM_CPU_UPDATE_INTERVAL in milliseconds, the
sampler's minimum settle time between CPU samples (external constant). -/
def MINIMUM_CPU_UPDATE_INTERVAL_MS : Nat := 200

/-- Sleep between CPU refreshes hard-wired in SystemMonitor::new. -/
def newCpuSleepMs : Nat := MINIMUM_CPU_UPDATE_INTERVAL_MS

/-- Sleep between memory refreshes hard-wired in SystemMonitor::new. -/
def newMemorySleepMs : Nat := 10000

/-- Sleep between disk refreshes hard-wired in SystemMonitor::new. -/
def newDiskSleepMs : Nat := 30000

/-- Sleep between network refreshes hard-wired in SystemMonitor::new. -/
def newNetworkSleepMs : Nat := 500

/-- Modelled from the spec: SystemMonitorBuilder is used by
examples/monitor.rs but its definition is not under src. Per the spec's
construction surface, it holds one independently settable refresh
interval option per metric class (durations in milliseconds). -/
structure SystemMonitorBuilder where
  cpu : Option Nat
  memory : Option Nat
  network : Option Nat
  disk : Option Nat
  deriving DecidableEq

/-- Modelled from the spec: SystemMonitorBuilder::new, nothing set. -/
def SystemMonitorBuilder.mkNew : SystemMonitorBuilder :=
  { cpu := none, memory := none, network := none, disk := none }

/-- Modelled from the spec: the builder's cpu(interval) setter. -/
def SystemMonitorBuilder.setCpu (b : SystemMonitorBuilder) (d : Nat) : SystemMonitorBuilder :=
  { b with cpu := some d }

/-- Modelled from the spec: the builder's memory(interval) setter. -/
def SystemMonitorBuilder.setMemory (b : SystemMonitorBuilder) (d : Nat) : SystemMonitorBuilder :=
  { b with memory := some d }

/-- Modelled from the spec: the builder's network(interval) setter. -/
def SystemMonitorBuilder.setNetwork (b : SystemMonitorBuilder) (d : Nat) : SystemMonitorBuilder :=
  { b with network := some d }

/-- Modelled from the spec: the builder's disk(interval) setter. -/
def SystemMonitorBuilder.setDisk (b : SystemMonitorBuilder) (d : Nat) : SystemMonitorBuilder :=
  { b with disk := some d }

/-- Refresh intervals the constructed monitor runs with, one per class. -/
structure MonitorConfig where
  cpuIntervalMs : Nat
  memoryIntervalMs : Nat
  networkIntervalMs : Nat
  diskIntervalMs : Nat
  deriving DecidableEq

/-- Modelled from the spec: SystemMonitorBuilder::build resolves each
interval left unset to the built-in default, which is the corresponding
interval hard-wired in SystemMonitor::new. -/
def SystemMonitorBuilder.build (b : SystemMonitorBuilder) : MonitorConfig :=
  { cpuIntervalMs := b.cpu.getD newCpuSleepMs
    memoryIntervalMs := b.memory.getD newMemorySleepMs
    networkIntervalMs := b.network.getD newNetworkSleepMs
    diskIntervalMs := b.disk.getD newDiskSleepMs }

/-- Modelled from the spec: the sleep the CPU refresher loop actually
uses. Spec 4.2 requires the interval never to fall below the sampler's
settle-time floor, clamped or rejected at construction; the clamping
policy is chosen and documented here. -/
def cpuLoopIntervalMs (cfg : MonitorConfig) : Nat :=
  max MINIMUM_CPU_UPDATE_INTERVAL_MS cfg.cpuIntervalMs

/-- Modelled from the spec: the sleep the memory refresher loop uses is
exactly the configured memory interval. -/
def memoryLoopIntervalMs (cfg : MonitorConfig) : Nat := cfg.memoryIntervalMs

/-- Modelled from the spec: the sleep the network refresher loop uses is
exactly the configured network interval. -/
def networkLoopIntervalMs (cfg : MonitorConfig) : Nat := cfg.networkIntervalMs

/-- Modelled from the spec: the sleep the disk refresher loop uses is
exactly the configured disk interval. -/
def diskLoopIntervalMs (cfg : MonitorConfig) : Nat := cfg.diskIntervalMs

/-- C2: for every call to get_cpu, get_memory, get_network or get_disk,
if the dispatcher (or the whole monitor) has shut down — so the request's
reply sender is dropped unsent — or the reply channel is dropped before a
value arrives, the operation returns that metric class's empty/default
value: the empty vector for CPU, network and disk, and the all-zero
Memory struct. The operations are total functions, so no error is ever
returned or raised. -/
theorem C2_defaults_on_shutdown (alive : Bool) (v1 : List Cpu) (v2 : Memory)
    (v3 : List Network) (v4 : List Disk) (h : alive = false) :
    get_cpu (awaitOutcome (replyFate alive v1)) = [] ∧
    get_memory (awaitOutcome (replyFate alive v2)) = Memory.rustDefault ∧
    get_network (awaitOutcome (replyFate alive v3)) = [] ∧
    get_disk (awaitOutcome (replyFate alive v4)) = [] ∧
    get_cpu (awaitOutcome SenderFate.dropped) = [] ∧
    get_memory (awaitOutcome SenderFate.dropped) = Memory.rustDefault ∧
    get_network (awaitOutcome SenderFate.dropped) = [] ∧
    get_disk (awaitOutcome SenderFate.dropped) = [] ∧
    Memory.rustDefault = ⟨0, 0, 0, 0, ⟨0, 0, 0⟩⟩ := by
  subst h
  exact ⟨rfl, rfl, rfl, rfl, rfl, rfl, rfl, rfl, rfl⟩

/-- Witness for C2 at a concrete shut-down call. -/
theorem C2_defaults_on_shutdown_witness :
    get_cpu (awaitOutcome (replyFate false [{ name := "cpu0", usage := 1.5 }])) = [] ∧
    get_memory (awaitOutcome (replyFate false Memory.rustDefault)) = Memory.rustDefault :=
  have h := C2_defaults_on_shutdown false [{ name := "cpu0", usage := 1.5 }]
    Memory.rustDefault [] [] rfl
  ⟨h.1, h.2.1⟩

/-- C3: the construction surface offers a builder on which each metric
class's refresh interval is independently settable before building the
monitor; intervals left unset take the built-in defaults; and the
resulting configuration is what each refresher loop sleeps (for the CPU
loop, whenever the configured value respects the sampler floor). -/
theorem C3_builder_configuration (c m n d : Nat)
    (hc : MINIMUM_CPU_UPDATE_INTERVAL_MS ≤ c) :
    ((((SystemMonitorBuilder.mkNew.setCpu c).setMemory m).setNetwork n).setDisk d).build =
      ⟨c, m, n, d⟩ ∧
    SystemMonitorBuilder.mkNew.build =
      ⟨newCpuSleepMs, newMemorySleepMs, newNetworkSleepMs, newDiskSleepMs⟩ ∧
    (SystemMonitorBuilder.mkNew.setMemory m).build =
      ⟨newCpuSleepMs, m, newNetworkSleepMs, newDiskSleepMs⟩ ∧
    (SystemMonitorBuilder.mkNew.setCpu c).build =
      ⟨c, newMemorySleepMs, newNetworkSleepMs, newDiskSleepMs⟩ ∧
    cpuLoopIntervalMs
      ((((SystemMonitorBuilder.mkNew.setCpu c).setMemory m).setNetwork n).setDisk d).build = c ∧
    memoryLoopIntervalMs
      ((((SystemMonitorBuilder.mkNew.setCpu c).setMemory m).setNetwork n).setDisk d).build = m ∧
    networkLoopIntervalMs
      ((((SystemMonitorBuilder.mkNew.setCpu c).setMemory m).setNetwork n).setDisk d).build = n ∧
    diskLoopIntervalMs
      ((((SystemMonitorBuilder.mkNew.setCpu c).setMemory m).setNetwork n).setDisk d).build = d := by
  refine ⟨rfl, rfl, rfl, rfl, ?_, rfl, rfl, rfl⟩
  simpa [cpuLoopIntervalMs, SystemMonitorBuilder.build, SystemMonitorBuilder.mkNew,
    SystemMonitorBuilder.setCpu, SystemMonitorBuilder.setMemory,
    SystemMonitorBuilder.setNetwork, SystemMonitorBuilder.setDisk] using Nat.max_eq_right hc

/-- Witness for C3 at the intervals examples/monitor.rs configures. -/
theorem C3_builder_configuration_witness :
    ((((SystemMonitorBuilder.mkNew.setCpu 1000).setMemory 10000).setNetwork 1000).setDisk
        30000).build = ⟨1000, 10000, 1000, 30000⟩ ∧
    cpuLoopIntervalMs
      ((((SystemMonitorBuilder.mkNew.setCpu 1000).setMemory 10000).setNetwork 1000).setDisk
          30000).build = 1000 :=
  have h := C3_builder_configuration 1000 10000 1000 30000 (by decide)
  ⟨h.1, h.2.2.2.2.1⟩

/-- C7: the interval the CPU refresher sleeps is at least the sampler's
minimum settle time: SystemMonitor::new hard-wires exactly
MINIMUM_CPU_UPDATE_INTERVAL, and any built configuration is clamped to
the floor, so a configuration below the floor still never produces two
CPU samples closer together than the floor. -/
theorem C7_cpu_settle_floor (cfg : MonitorConfig) :
    newCpuSleepMs = MINIMUM_CPU_UPDATE_INTERVAL_MS ∧
    MINIMUM_CPU_UPDATE_INTERVAL_MS ≤ newCpuSleepMs ∧
    MINIMUM_CPU_UPDATE_INTERVAL_MS ≤ cpuLoopIntervalMs cfg ∧
    (cfg.cpuIntervalMs < MINIMUM_CPU_UPDATE_INTERVAL_MS →
      cpuLoopIntervalMs cfg = MINIMUM_CPU_UPDATE_INTERVAL_MS) := by
  refine ⟨rfl, Nat.le_refl _, Nat.le_max_left _ _, ?_⟩
  intro hlt
  exact Nat.max_eq_left (Nat.le_of_lt hlt)

/-- Witness for C7 at a configuration whose CPU interval is below the
floor: the loop interval is clamped up to the floor. -/
theorem C7_cpu_settle_floor_witness :
    MINIMUM_CPU_UPDATE_INTERVAL_MS ≤ cpuLoopIntervalMs ⟨100, 10000, 500, 30000⟩ ∧
    cpuLoopIntervalMs ⟨100, 10000, 500, 30000⟩ = MINIMUM_CPU_UPDATE_INTERVAL_MS :=
  have h := C7_cpu_settle_floor ⟨100, 10000, 500, 30000⟩
  ⟨h.2.2.1, h.2.2.2 (by decide)⟩

/-- C8: every refresher step writes only its own metric class in the
store and leaves the other three classes unchanged, and a request served
by the dispatcher (which holds only a read guard) leaves the entire store
unchanged. -/
theorem C8_refresh_and_request_frame (s : Sysinfo.System) (rc : List SysCpu)
    (rm : MemCounters) (rd : List SysDisk) (rn : List (String × SysNetwork))
    (t : RequestTag) :
    (s.refresh_cpu rc).memory = s.memory ∧
    (s.refresh_cpu rc).networks = s.networks ∧
    (s.refresh_cpu rc).disks = s.disks ∧
    (s.refresh_memory rm).cpus = s.cpus ∧
    (s.refresh_memory rm).networks = s.networks ∧
    (s.refresh_memory rm).disks = s.disks ∧
    (s.refresh_disks rd).cpus = s.cpus ∧
    (s.refresh_disks rd).memory = s.memory ∧
    (s.refresh_disks rd).networks = s.networks ∧
    (s.refresh_networks rn).cpus = s.cpus ∧
    (s.refresh_networks rn).memory = s.memory ∧
    (s.refresh_networks rn).disks = s.disks ∧
    (dispatchStep s t).1 = s :=
  ⟨rfl, rfl, rfl, rfl, rfl, rfl, rfl, rfl, rfl, rfl, rfl, rfl, rfl⟩

/-- C9 counterexample: the claim says that after the monitor is dropped
no refresher step occurs, but a refresher thread's body is an
unconditional loop with no shutdown check, so it still continues when the
monitor has been dropped. -/
theorem C9_counterexample : ¬ refresherLoopContinues true = false := by decide

/-- A caller or dispatcher step never grows the inbound buffer past the
channel capacity: enqueueing requires free space and serving shrinks it. -/
lemma chanStep_buffer_bound {a b : ChanState} (h : ChanStep a b)
    (ha : a.buffer.length ≤ inboundCapacity) : b.buffer.length ≤ inboundCapacity := by
  cases h with
  | enqueue t ts st hp hlen =>
      simp only [inboundCapacity] at hlen ha ⊢
      simp only [List.length_append, List.length_cons, List.length_nil]
      omega
  | serveReq t ts st hb =>
      have hlen : a.buffer.length = ts.length + 1 := by rw [hb]; rfl
      simp only [inboundCapacity] at ha ⊢
      omega

/-- Alternating enqueue and serve steps drains any list of waiting
callers, serving one request per caller. -/
lemma chanServeAll (tags : List RequestTag) (n : Nat) :
    ∃ st, ChanReachable ⟨[], tags, n⟩ st ∧ st.served = n + tags.length ∧
      st.pending = [] ∧ st.buffer = [] := by
  induction tags generalizing n with
  | nil => exact ⟨⟨[], [], n⟩, Relation.ReflTransGen.refl, by simp, rfl, rfl⟩
  | cons t ts ih =>
      obtain ⟨st, hr, hs, hp, hb⟩ := ih (n + 1)
      have s1 : ChanStep ⟨[], t :: ts, n⟩ ⟨[t], ts, n⟩ :=
        ChanStep.enqueue t ts _ rfl (by simp [inboundCapacity])
      have s2 : ChanStep ⟨[t], ts, n⟩ ⟨[], ts, n + 1⟩ :=
        ChanStep.serveReq t [] _ rfl
      refine ⟨st, Relation.ReflTransGen.head s1 (Relation.ReflTransGen.head s2 hr), ?_,
        hp, hb⟩
      simp only [List.length_cons]
      omega

/-- C6: the inbound request channel is bounded at capacity 1, so in every
reachable interleaving at most one request is buffered toward the
dispatcher; a caller's enqueue completes only when there is queue space
(it stays suspended otherwise); and for any number of concurrent callers
there is an execution serving them all, with total requests served equal
to the number of callers. -/
theorem C6_bounded_inbound_backpressure (tags : List RequestTag) :
    (∀ st, ChanReachable (chanInit tags) st → st.buffer.length ≤ inboundCapacity) ∧
    (∀ st st2, ChanStep st st2 → st2.pending ≠ st.pending →
      st.buffer.length < inboundCapacity) ∧
    (∃ st, ChanReachable (chanInit tags) st ∧ st.served = tags.length ∧
      st.pending = [] ∧ st.buffer = []) := by
  refine ⟨?_, ?_, ?_⟩
  · intro st h
    induction h with
    | refl => simp [chanInit, inboundCapacity]
    | tail hab hbc ih => exact chanStep_buffer_bound hbc ih
  · intro st st2 h hne
    cases h with
    | enqueue t ts st hp hlen => exact hlen
    | serveReq t ts st hb => exact absurd rfl hne
  · obtain ⟨st, hr, hs, hp, hb⟩ := chanServeAll tags 0
    exact ⟨st, hr, by omega, hp, hb⟩

/-- Witness for C6 with two concurrent callers: the initial state is
within the buffer bound, and both callers are eventually served. -/
theorem C6_bounded_inbound_backpressure_witness :
    (chanInit [RequestTag.cpu, RequestTag.network]).buffer.length ≤ inboundCapacity ∧
    ∃ st, ChanReachable (chanInit [RequestTag.cpu, RequestTag.network]) st ∧
      st.served = 2 ∧ st.pending = [] ∧ st.buffer = [] :=
  have h := C6_bounded_inbound_backpressure [RequestTag.cpu, RequestTag.network]
  ⟨h.1 _ Relation.ReflTransGen.refl, h.2.2⟩

/-- C1: after exactly one completed refresh of a metric class on the
freshly constructed (empty) store, and a successfully served request, the
corresponding client query returns exactly the values the sampler
produced for that cycle: per-core name and usage for CPU, every memory
and swap counter, every per-interface counter for network, and each
disk's lossily decoded filesystem name, mount point, total and available
space. -/
theorem C1_round_trip_single_refresh (rc : List SysCpu) (rm : MemCounters)
    (rn : List (String × SysNetwork)) (rd : List SysDisk) :
    (get_cpu (awaitOutcome (replyFate true
      (answerCpu (Sysinfo.System.new.refresh_cpu rc))))).length = rc.length ∧
    (∀ (j : Nat) (c : SysCpu), rc[j]? = some c →
      (get_cpu (awaitOutcome (replyFate true
        (answerCpu (Sysinfo.System.new.refresh_cpu rc)))))[j]? = some ⟨c.name, c.usage⟩) ∧
    get_memory (awaitOutcome (replyFate true
        (answerMemory (Sysinfo.System.new.refresh_memory rm)))) =
      ⟨rm.total, rm.available, rm.free, rm.used,
        ⟨rm.swap_total, rm.swap_free, rm.swap_used⟩⟩ ∧
    (get_network (awaitOutcome (replyFate true
      (answerNetwork (Sysinfo.System.new.refresh_networks rn))))).length = rn.length ∧
    (∀ (j : Nat) (p : String × SysNetwork), rn[j]? = some p →
      (get_network (awaitOutcome (replyFate true
        (answerNetwork (Sysinfo.System.new.refresh_networks rn)))))[j]? =
          some ⟨p.1, p.2.received, p.2.total_received, p.2.transmitted,
            p.2.total_transmitted, p.2.packets_received, p.2.total_packets_received,
            p.2.packets_transmitted, p.2.total_packets_transmitted,
            p.2.errors_on_received, p.2.total_errors_on_received,
            p.2.errors_on_transmitted, p.2.total_errors_on_transmitted⟩) ∧
    (get_disk (awaitOutcome (replyFate true
      (answerDisk (Sysinfo.System.new.refresh_disks rd))))).length = rd.length ∧
    (∀ (j : Nat) (d : SysDisk), rd[j]? = some d →
      (get_disk (awaitOutcome (replyFate true
        (answerDisk (Sysinfo.System.new.refresh_disks rd)))))[j]? =
          some ⟨fromUtf8Lossy d.file_system, d.mount_point, d.total_space,
            d.available_space⟩) := by
  refine ⟨by simp [get_cpu, unwrapOrDefault, awaitOutcome, replyFate, answerCpu,
      Sysinfo.System.refresh_cpu], ?_,
    rfl, by simp [get_network, unwrapOrDefault, awaitOutcome, replyFate, answerNetwork,
      Sysinfo.System.refresh_networks],
    ?_, by simp [get_disk, unwrapOrDefault, awaitOutcome, replyFate, answerDisk,
      Sysinfo.System.refresh_disks], ?_⟩
  · intro j c h
    simp [get_cpu, unwrapOrDefault, awaitOutcome, replyFate, answerCpu,
      Sysinfo.System.refresh_cpu, List.getElem?_map, h]
  · intro j p h
    simp [get_network, unwrapOrDefault, awaitOutcome, replyFate, answerNetwork,
      Sysinfo.System.refresh_networks, List.getElem?_map, h]
  · intro j d h
    simp [get_disk, unwrapOrDefault, awaitOutcome, replyFate, answerDisk,
      Sysinfo.System.refresh_disks, List.getElem?_map, h]

/-- Witness for C1 at the spec's concrete sampler values (total memory
16000000000, used 4000000000) and a one-core, one-disk reading. -/
theorem C1_round_trip_single_refresh_witness :
    get_memory (awaitOutcome (replyFate true (answerMemory
        (Sysinfo.System.new.refresh_memory
          ⟨16000000000, 9000000000, 8000000000, 4000000000, 1000, 600, 400⟩)))) =
      ⟨16000000000, 9000000000, 8000000000, 4000000000, ⟨1000, 600, 400⟩⟩ ∧
    (get_cpu (awaitOutcome (replyFate true (answerCpu
        (Sysinfo.System.new.refresh_cpu [⟨"cpu0", 12.5⟩])))))[0]? =
      some ⟨"cpu0", 12.5⟩ ∧
    (get_disk (awaitOutcome (replyFate true (answerDisk
        (Sysinfo.System.new.refresh_disks
          [⟨[0x65, 0x78, 0x74, 0x34], "/", 1000, 400⟩])))))[0]? =
      some ⟨"ext4", "/", 1000, 400⟩ :=
  have h := C1_round_trip_single_refresh [⟨"cpu0", 12.5⟩]
    ⟨16000000000, 9000000000, 8000000000, 4000000000, 1000, 600, 400⟩ []
    [⟨[0x65, 0x78, 0x74, 0x34], "/", 1000, 400⟩]
  ⟨h.2.2.1, h.2.1 0 ⟨"cpu0", 12.5⟩ rfl, by
    have hd := h.2.2.2.2.2.2 0 ⟨[0x65, 0x78, 0x74, 0x34], "/", 1000, 400⟩ rfl
    rw [hd]
    rfl⟩

/-- C4: the dispatcher loop serves every received request even when some
requests' reply receivers were dropped before delivery: the loop's output
has one entry per request, a request with a live receiver gets its served
value, one with a dropped receiver is discarded silently (delivered
nothing), and the entries after an abandoned request are exactly what
they would have been had it not been abandoned. -/
theorem C4_abandoned_reply_is_noop (s : Sysinfo.System)
    (items : List (RequestTag × Bool)) (t : RequestTag)
    (rest : List (RequestTag × Bool)) :
    (dispatchAll s items).length = items.length ∧
    (∀ (j : Nat) (t2 : RequestTag) (alive : Bool), items[j]? = some (t2, alive) →
      (dispatchAll s items)[j]? = some (oneshotSendOk alive (serve s t2))) ∧
    dispatchAll s ((t, false) :: rest) = none :: dispatchAll s rest ∧
    (∀ (j : Nat), (dispatchAll s ((t, false) :: rest))[j + 1]? =
      (dispatchAll s ((t, true) :: rest))[j + 1]?) := by
  refine ⟨?_, ?_, rfl, by intro j; rfl⟩
  · induction items with
    | nil => rfl
    | cons hd tl ih => simp [dispatchAll, ih]
  · induction items with
    | nil =>
        intro j t2 alive h
        simp at h
    | cons hd tl ih =>
        obtain ⟨t0, alive0⟩ := hd
        intro j t2 alive h
        cases j with
        | zero =>
            simp only [List.getElem?_cons_zero, Option.some_inj] at h
            injection h with h1 h2
            subst h1; subst h2
            simp [dispatchAll]
        | succ j =>
            simp only [List.getElem?_cons_succ] at h
            have h2 := ih j t2 alive h
            simpa [dispatchAll] using h2

/-- Witness for C4 on a concrete queue where the first request's receiver
was dropped: it is discarded, and the next request is still served. -/
theorem C4_abandoned_reply_is_noop_witness :
    (dispatchAll Sysinfo.System.new
        [(RequestTag.memory, false), (RequestTag.memory, true)]).length = 2 ∧
    (dispatchAll Sysinfo.System.new
        [(RequestTag.memory, false), (RequestTag.memory, true)])[0]? =
      some (oneshotSendOk false (serve Sysinfo.System.new RequestTag.memory)) ∧
    (dispatchAll Sysinfo.System.new
        [(RequestTag.memory, false), (RequestTag.memory, true)])[1]? =
      some (oneshotSendOk true (serve Sysinfo.System.new RequestTag.memory)) :=
  have h := C4_abandoned_reply_is_noop Sysinfo.System.new
    [(RequestTag.memory, false), (RequestTag.memory, true)] RequestTag.memory []
  ⟨h.1, h.2.1 0 RequestTag.memory false rfl, h.2.1 1 RequestTag.memory true rfl⟩

/-- C5: the dispatcher serves requests one at a time in strict arrival
order across all four metric classes combined: its answer log has one
entry per dequeued request and the j-th answer is the answer to the j-th
request, served at iteration i + j — so no later request is answered
before an earlier one. -/
theorem C5_fifo_service (stores : Nat → Sysinfo.System) (i : Nat)
    (reqs : List RequestTag) :
    (dispatchFrom stores i reqs).length = reqs.length ∧
    ∀ (j : Nat) (t : RequestTag), reqs[j]? = some t →
      (dispatchFrom stores i reqs)[j]? = some (serve (stores (i + j)) t) := by
  induction reqs generalizing i with
  | nil =>
      refine ⟨rfl, ?_⟩
      intro j t h
      simp at h
  | cons hd tl ih =>
      refine ⟨by simp [dispatchFrom, (ih (i + 1)).1], ?_⟩
      intro j t h
      cases j with
      | zero =>
          simp only [List.getElem?_cons_zero, Option.some_inj] at h
          subst h
          simp [dispatchFrom]
      | succ j =>
          simp only [List.getElem?_cons_succ] at h
          have h2 := (ih (i + 1)).2 j t h
          simpa [dispatchFrom, Nat.add_assoc, Nat.add_comm 1 j] using h2

/-- Witness for C5 on a concrete two-request queue: the first dequeued
request is answered first. -/
theorem C5_fifo_service_witness :
    (dispatchFrom (fun _ => Sysinfo.System.new) 0
        [RequestTag.cpu, RequestTag.disk])[0]? =
      some (serve (Sysinfo.System.new) RequestTag.cpu) ∧
    (dispatchFrom (fun _ => Sysinfo.System.new) 0
        [RequestTag.cpu, RequestTag.disk])[1]? =
      some (serve (Sysinfo.System.new) RequestTag.disk) :=
  have h := C5_fifo_service (fun _ => Sysinfo.System.new) 0
    [RequestTag.cpu, RequestTag.disk]
  ⟨h.2 0 RequestTag.cpu rfl, h.2 1 RequestTag.disk rfl⟩

/-- C10: get_disk never fails on, nor omits, a disk whose
filesystem-name bytes are not valid UTF-8: the returned list has exactly
one entry per stored disk, each entry's filesystem name is the lossy
UTF-8 decoding of the raw bytes, and whenever those bytes are not valid
UTF-8 the decoded name contains U+FFFD. -/
theorem C10_lossy_filesystem_names (s : Sysinfo.System) :
    (get_disk (awaitOutcome (replyFate true (answerDisk s)))).length = s.disks.length ∧
    (∀ (j : Nat) (d : SysDisk), s.disks[j]? = some d →
      (get_disk (awaitOutcome (replyFate true (answerDisk s))))[j]? =
        some ⟨fromUtf8Lossy d.file_system, d.mount_point, d.total_space,
          d.available_space⟩) ∧
    (∀ bs : List UInt8, validUtf8 bs = false →
      replacementChar ∈ (fromUtf8Lossy bs).toList) := by
  refine ⟨by simp [get_disk, unwrapOrDefault, awaitOutcome, replyFate, answerDisk], ?_, ?_⟩
  · intro j d h
    simp [get_disk, unwrapOrDefault, awaitOutcome, replyFate, answerDisk,
      List.getElem?_map, h]
  · intro bs h
    rcases valid_or_replacement_mem bs with hv | hm
    · rw [h] at hv
      cases hv
    · simpa [fromUtf8Lossy, String.toList] using hm

/-- Witness for C10 on a store with one disk whose filesystem name is the
invalid byte 0xFF: the entry is returned, named by the replacement
character. -/
theorem C10_lossy_filesystem_names_witness :
    (get_disk (awaitOutcome (replyFate true (answerDisk
        (Sysinfo.System.new.refresh_disks [⟨[0xFF], "/data", 10, 5⟩])))))[0]? =
      some ⟨fromUtf8Lossy [0xFF], "/data", 10, 5⟩ ∧
    validUtf8 [0xFF] = false ∧
    replacementChar ∈ (fromUtf8Lossy [0xFF]).toList :=
  have h := C10_lossy_filesystem_names (Sysinfo.System.new.refresh_disks
    [⟨[0xFF], "/data", 10, 5⟩])
  ⟨h.2.1 0 ⟨[0xFF], "/data", 10, 5⟩ rfl, by decide, h.2.2 [0xFF] (by decide)⟩

/-- C9 amended: the dispatcher loop runs for the monitor's lifetime and
exits exactly when the monitor handle (the only sender) has been dropped
and the inbound queue is drained, while the four refresher loops never
terminate on their own — not even after the monitor is dropped. -/
theorem C9_loop_lifetimes (senderAlive dropped : Bool) (queue : List RequestTag) :
    refresherLoopContinues dropped = true ∧
    (dispatcherLoopExited senderAlive queue = true ↔ senderAlive = false ∧ queue = []) := by
  constructor
  · cases dropped <;> rfl
  · cases queue <;> cases senderAlive <;>
      simp [dispatcherLoopExited, chanRecv]

/-- Witness for the amended C9: a refresher still continues after the
monitor is dropped, and the dispatcher loop has exited once the monitor
handle is gone and the queue is empty. -/
theorem C9_loop_lifetimes_witness :
    refresherLoopContinues true = true ∧ dispatcherLoopExited false [] = true :=
  have h := C9_loop_lifetimes false true []
  ⟨h.1, h.2.mpr ⟨rfl, rfl⟩⟩

end SystemMonitorModel
